import Mathlib

/-!
Shallow embedding of the letta-bot per-channel message queue core.

The embedded code comes from `src/messageQueue.ts` (the current, typing-aware
variant of `MessageQueueManager` / `MessageQueue`), from the older
abort-and-rebatch variant of the same file, and from `src/messages.ts`.
Asynchronous TypeScript is modelled by explicit environments: the backend
stream call and the reply-fetch are functions supplied in an environment
record, returning `Except`/outcome values; promise settlement is modelled as
an explicit settlement log pairing each pending request's identity with the
outcome its completion handle receives.
-/

namespace LettaBot

/-- `MessageType` enum from `src/messages.ts`. -/
inductive MessageType
  | DM
  | MENTION
  | REPLY
  | GENERIC
  deriving DecidableEq, Repr

/-- JavaScript `a || b` fallback where `a` is a possibly-missing, possibly-empty
string (e.g. `discordMessageObject.member?.nickname || displayName`): both an
absent value and the empty string fall back to `b`. -/
def jsOrElse (a : Option String) (b : String) : String :=
  match a with
  | some s => if s = "" then b else s
  | none => b

/-- `truncateMessage` from `src/messages.ts`: truncate to `maxLength - 3`
characters and append an ellipsis when over the cap. -/
def truncateMessage (message : String) (maxLength : Nat) : String :=
  if message.length > maxLength then message.take (maxLength - 3) ++ "..." else message

/-- A JavaScript `Error`, reduced to the two fields the queue inspects:
`error.name` and `error.message`. -/
structure Err where
  name : String
  message : String
  deriving DecidableEq, Repr

/-- Substring containment on character lists (JavaScript
`String.prototype.includes`): the pattern occurs as a contiguous run. -/
def charListContains (pat : List Char) : List Char → Bool
  | [] => pat.isEmpty
  | c :: cs => pat.isPrefixOf (c :: cs) || charListContains pat cs

/-- The cancellation-class test used by the abort-and-rebatch variant:
`error.name === "AbortError" || error.message.includes("aborted")`. -/
def isAbortError (e : Err) : Bool :=
  e.name = "AbortError" || charListContains "aborted".toList e.message.toList

/-- Fields of a Discord message object that `formatDiscordMessage` reads.
`channelName` is the value of `"name" in channel ? channel.name || "" : ""`;
`attachmentDescription` and `linkDescription` are the (awaited) results of
`getAttachmentDescription(attachments)` and `processLinks(message)`, supplied
as data since those collaborators never throw into the queue. -/
structure DiscordMessage where
  authorId : String
  authorDisplayName : String
  memberNickname : Option String
  content : String
  channelName : String
  referenceMessageId : Option String
  attachmentDescription : String
  linkDescription : String
  deriving DecidableEq, Repr

/-- Fields of a `GuildMember` read by the member-join formatting code.
`joinedAtISO` models `joinedAt?.toISOString()`. -/
structure MemberJoinData where
  displayName : String
  id : String
  guildName : String
  joinedAtISO : Option String
  deriving DecidableEq, Repr

/-- The three shapes a `QueuedMessage` can take, following the dispatch tests
in `processNext` / `processBatch`: `discordMessage === null && !memberJoinData`
is a timer message, `memberJoinData` present is a member join, otherwise a
regular Discord message with its classification. -/
inductive MsgKind
  | timer
  | memberJoin (data : MemberJoinData)
  | chat (msg : DiscordMessage) (messageType : MessageType)
  deriving DecidableEq, Repr

/-- One `QueuedMessage` / pending request: `rid` identifies its promise
(resolve/reject pair) in the settlement log; `timestamp` is `Date.now()` at
enqueue time. -/
structure QueuedMessage where
  rid : Nat
  kind : MsgKind
  timestamp : Nat
  deriving DecidableEq, Repr

/-- The original message fetched for reply context
(`channel.messages.fetch(reference.messageId)`). -/
structure FetchedMessage where
  authorId : String
  authorDisplayName : String
  memberNickname : Option String
  content : String
  deriving DecidableEq, Repr

/-- Outcome of one backend call (`client.agents.messages.createStream` followed
by `processStream`): the stream was consumed to a final text, or the call /
stream threw, or `createStream` returned a falsy response. -/
inductive BackendOutcome
  | success (text : String)
  | failure (e : Err)
  | noStream
  deriving Repr

/-- Environment for one dispatch: the reply-context fetch (which can reject)
and the backend call keyed by the exact payload sent. -/
structure BatchEnv where
  fetch : String → Except Err FetchedMessage
  backend : String → BackendOutcome

/-- `formatDiscordMessage` from `src/messageQueue.ts`: builds the bracketed
payload text for one Discord message.  The reply-context fetch is awaited with
no try/catch, so its failure propagates as the `Except.error` case. -/
def formatDiscordMessage (fetch : String → Except Err FetchedMessage)
    (m : DiscordMessage) (messageType : MessageType) : Except Err String := do
  let nickname := jsOrElse m.memberNickname m.authorDisplayName
  let senderNameReceipt := nickname ++ " (id=" ++ m.authorId ++ ")"
  let channelName := m.channelName
  let originalMessage ←
    if messageType = MessageType.REPLY then
      match m.referenceMessageId with
      | some refId => do
          let om ← fetch refId
          let originalSenderNickname := jsOrElse om.memberNickname om.authorDisplayName
          pure (originalSenderNickname ++ " (id=" ++ om.authorId ++ "): " ++
            truncateMessage om.content 100)
      | none => pure ""
    else pure ""
  let tail := m.content ++ m.linkDescription ++ m.attachmentDescription
  match messageType with
  | MessageType.DM =>
      pure ("[" ++ senderNameReceipt ++ " sent you a direct message] " ++ tail)
  | MessageType.MENTION =>
      pure ("[" ++ senderNameReceipt ++ " sent a message mentioning you in channel " ++
        channelName ++ "] " ++ tail)
  | MessageType.REPLY =>
      pure ("[" ++ senderNameReceipt ++ " replied to message: " ++ originalMessage ++
        " in channel " ++ channelName ++ "] " ++ tail)
  | MessageType.GENERIC =>
      pure ("[" ++ senderNameReceipt ++ " sent a message to channel " ++ channelName ++
        "] " ++ tail)

/-- The member-join event text built inline in `processBatch` and in
`processMemberJoinMessage` (identical template). -/
def formatMemberJoin (d : MemberJoinData) : String :=
  "[EVENT] A new member has joined the Discord server \"" ++ d.guildName ++ "\": " ++
    d.displayName ++ " (id=" ++ d.id ++ "). They joined at " ++
    (d.joinedAtISO.getD "unknown") ++ "."

/-- The fixed heartbeat template sent by `processTimerMessage`. -/
def heartbeatContent : String :=
  "[EVENT] This is an automated timed heartbeat (visible to yourself only). " ++
    "Use this event to send a message, to set a Discord status, to reflect on " ++
    "recent events, or anything else. It's up to you! Consider though that this " ++
    "is an opportunity for you to think for yourself - since your circuit will " ++
    "not be activated until the next automated/timed heartbeat or incoming " ++
    "message event."

/-- The content-collection loop of `processBatch`: timer messages are skipped,
member joins are formatted inline, Discord messages go through
`formatDiscordMessage`; the first formatting failure propagates (the loop
body is outside `processBatch`'s try block). -/
def batchMessageContents (fetch : String → Except Err FetchedMessage) :
    List QueuedMessage → Except Err (List String)
  | [] => Except.ok []
  | m :: rest =>
    match m.kind with
    | MsgKind.timer => batchMessageContents fetch rest
    | MsgKind.memberJoin d => do
        let tail ← batchMessageContents fetch rest
        pure (formatMemberJoin d :: tail)
    | MsgKind.chat dm mt => do
        let c ← formatDiscordMessage fetch dm mt
        let tail ← batchMessageContents fetch rest
        pure (c :: tail)

/-- The combination step of `processBatch`: no contents means no backend call
(`none`); a single content is sent verbatim; several are wrapped with the
batch marker and joined with blank lines. -/
def combineContents (contents : List String) : Option String :=
  match contents with
  | [] => none
  | [c] => some c
  | _ =>
      some ("[BATCH: " ++ toString contents.length ++
        " messages received in quick succession]\n\n" ++
        String.intercalate "\n\n" contents)

/-- `processBatch` from the current variant of `src/messageQueue.ts`.
Returns the result as seen by `processBatchedMessages` (`Except.error` only
when formatting throws, since the backend try/catch returns `""` on any
failure) together with the list of payloads actually sent to the backend. -/
def processBatch (agentId : Option String) (env : BatchEnv)
    (messages : List QueuedMessage) : Except Err String × List String :=
  match agentId with
  | none => (Except.ok "", [])
  | some _ =>
    match batchMessageContents env.fetch messages with
    | Except.error e => (Except.error e, [])
    | Except.ok contents =>
      match combineContents contents with
      | none => (Except.ok "", [])
      | some payload =>
        match env.backend payload with
        | BackendOutcome.success t => (Except.ok t, [payload])
        | BackendOutcome.noStream => (Except.ok "", [payload])
        | BackendOutcome.failure _ => (Except.ok "", [payload])

/-- `processBatch` from the abort-and-rebatch variant: identical except that a
cancellation-class backend failure is rethrown instead of absorbed. -/
def processBatchAbortVariant (agentId : Option String) (env : BatchEnv)
    (messages : List QueuedMessage) : Except Err String × List String :=
  match agentId with
  | none => (Except.ok "", [])
  | some _ =>
    match batchMessageContents env.fetch messages with
    | Except.error e => (Except.error e, [])
    | Except.ok contents =>
      match combineContents contents with
      | none => (Except.ok "", [])
      | some payload =>
        match env.backend payload with
        | BackendOutcome.success t => (Except.ok t, [payload])
        | BackendOutcome.noStream => (Except.ok "", [payload])
        | BackendOutcome.failure e =>
            if isAbortError e then (Except.error e, [payload])
            else (Except.ok "", [payload])

/-- `processMessage` from the current variant: format one Discord message
(fetch failure propagates) and call the backend, absorbing backend failures
to `""`. -/
def processMessage (agentId : Option String) (env : BatchEnv)
    (m : DiscordMessage) (messageType : MessageType) : Except Err String × List String :=
  match agentId with
  | none => (Except.ok "", [])
  | some _ =>
    match formatDiscordMessage env.fetch m messageType with
    | Except.error e => (Except.error e, [])
    | Except.ok content =>
      match env.backend content with
      | BackendOutcome.success t => (Except.ok t, [content])
      | BackendOutcome.noStream => (Except.ok "", [content])
      | BackendOutcome.failure _ => (Except.ok "", [content])

/-- `processTimerMessage` from the current variant. -/
def processTimerMessage (agentId : Option String) (env : BatchEnv) :
    Except Err String × List String :=
  match agentId with
  | none => (Except.ok "", [])
  | some _ =>
    match env.backend heartbeatContent with
    | BackendOutcome.success t => (Except.ok t, [heartbeatContent])
    | BackendOutcome.noStream => (Except.ok "", [heartbeatContent])
    | BackendOutcome.failure _ => (Except.ok "", [heartbeatContent])

/-- `processMemberJoinMessage` from the current variant. -/
def processMemberJoinMessage (agentId : Option String) (env : BatchEnv)
    (d : MemberJoinData) : Except Err String × List String :=
  match agentId with
  | none => (Except.ok "", [])
  | some _ =>
    match env.backend (formatMemberJoin d) with
    | BackendOutcome.success t => (Except.ok t, [formatMemberJoin d])
    | BackendOutcome.noStream => (Except.ok "", [formatMemberJoin d])
    | BackendOutcome.failure _ => (Except.ok "", [formatMemberJoin d])

/-- How one promise settles. -/
inductive Outcome
  | fulfilled (text : String)
  | rejected (e : Err)
  deriving DecidableEq, Repr

/-- The success-path settlement loop of `processBatchedMessages`
(`messages.forEach((msg, index) => ...)`): the last message's promise resolves
with the backend response, every earlier one's with the empty string. -/
def settleBatch (messages : List QueuedMessage) (response : String) :
    List (Nat × Outcome) :=
  messages.mapIdx (fun index msg =>
    (msg.rid,
      if index = messages.length - 1 then Outcome.fulfilled response
      else Outcome.fulfilled ""))

/-- Full settlement of `processBatchedMessages` in the current variant: a
successful `processBatch` result distributes per `settleBatch`; a thrown error
rejects every message in the batch. -/
def settleBatchedMessages (messages : List QueuedMessage)
    (result : Except Err String) : List (Nat × Outcome) :=
  match result with
  | Except.ok response => settleBatch messages response
  | Except.error e => messages.map (fun msg => (msg.rid, Outcome.rejected e))

/-- Settlement-and-requeue of `processBatchedMessages` in the abort-and-rebatch
variant: on a cancellation-class error nobody settles and the drained messages
are unshifted back onto the front of the batch buffer; any other error rejects
all of them; success distributes per `settleBatch`.  Returns the settlement
log and the resulting batch buffer. -/
def settleBatchedMessagesAbortVariant (messages buffer : List QueuedMessage)
    (result : Except Err String) : List (Nat × Outcome) × List QueuedMessage :=
  match result with
  | Except.ok response => (settleBatch messages response, buffer)
  | Except.error e =>
    if isAbortError e then ([], messages ++ buffer)
    else (messages.map (fun msg => (msg.rid, Outcome.rejected e)), buffer)

/-- Settlement of `processNext` in the current variant: a successful result
resolves the single message, any thrown error rejects it (the current variant
has no abort special case in `processNext`). -/
def settleSingle (msg : QueuedMessage) (result : Except Err String) : Nat × Outcome :=
  match result with
  | Except.ok response => (msg.rid, Outcome.fulfilled response)
  | Except.error e => (msg.rid, Outcome.rejected e)

/-! ### Queue Manager typing state (`MessageQueueManager`) -/

/-- Per-channel `TypingState`: the set of currently-typing user ids (modelled
as a duplicate-free list) and the timestamp of the last transition to empty
(`0` meaning it never happened, the field's initial value). -/
structure TypingState where
  users : List String
  lastTypingStop : Nat
  deriving DecidableEq, Repr

/-- The mutation of the typing state performed by `onTypingStart`: create the
state if absent, then add the user to the set. -/
def onTypingStart (st : Option TypingState) (userId : String) : TypingState :=
  let s := st.getD { users := [], lastTypingStop := 0 }
  { s with users := if s.users.contains userId then s.users else s.users ++ [userId] }

/-- The mutation of the typing state performed by `onTypingStop` at time `now`:
remove the user; if the set becomes empty, record `now` as the last stop. -/
def onTypingStop (st : Option TypingState) (userId : String) (now : Nat) :
    Option TypingState :=
  match st with
  | none => none
  | some s =>
    let users := s.users.erase userId
    if users.length = 0 then some { users := users, lastTypingStop := now }
    else some { s with users := users }

/-- `isChannelTyping`: true iff the channel has a typing state with a
non-empty set of typing users. -/
def isChannelTyping (st : Option TypingState) : Bool :=
  match st with
  | some s => s.users.length > 0
  | none => false

/-- `getTimeSinceLastTypingStop` at time `now`: `Date.now() - lastTypingStop`
when a state exists with `lastTypingStop > 0`, otherwise `Infinity` (modelled
as `none`). -/
def getTimeSinceLastTypingStop (st : Option TypingState) (now : Nat) : Option Nat :=
  match st with
  | some s => if s.lastTypingStop > 0 then some (now - s.lastTypingStop) else none
  | none => none

/-- JavaScript `d < x` where `d` may be `Infinity`: `Infinity < x` is false. -/
def durLt (d : Option Nat) (x : Nat) : Bool :=
  match d with
  | some t => t < x
  | none => false

/-- Timing configuration (`INITIAL_REQUEST_DELAY_MS`, `BATCH_DELAY_MS`,
`TYPING_PAUSE_DELAY_MS`, with their documented defaults). -/
structure Config where
  initialDelayMs : Nat := 30000
  batchDelayMs : Nat := 1000
  typingPauseMs : Nat := 2000
  deriving Repr

/-- `shouldWaitForTypingPause`: wait while someone is typing, or while typing
stopped less than the typing-pause duration ago. -/
def shouldWaitForTypingPause (cfg : Config) (st : Option TypingState) (now : Nat) : Bool :=
  if isChannelTyping st then true
  else durLt (getTimeSinceLastTypingStop st now) cfg.typingPauseMs

/-! ### Operational model of the current `MessageQueue` variant

One state machine step per synchronous segment of the TypeScript code: a
method runs atomically up to its first backend-call `await`; the backend call
then stays outstanding in `inFlight` until a separate completion event runs
the continuation.  (Awaits of already-resolved collaborator values inside the
formatting code are treated as part of the same segment, and `setImmediate`
continuations as part of the step that scheduled them.)  The model assumes a
configured agent id, so every dispatch reaches the backend call; the
unconfigured short-circuit is covered by the pure `process*` functions above. -/

/-- What an outstanding backend call was dispatched for. -/
inductive FlightKind
  | batch (messages : List QueuedMessage)
  | single (msg : QueuedMessage)
  deriving DecidableEq, Repr

/-- The batch timer is either the normally armed one (whose callback performs
the typing-pause check) or the rescheduled one (whose callback calls
`processBatchedMessages` directly). -/
inductive BatchTimerKind
  | normal
  | rescheduled
  deriving DecidableEq, Repr

/-- State of one `MessageQueue` plus the manager's typing state for its
channel, an outstanding-call list, and a settlement log. -/
structure QState where
  queue : List QueuedMessage
  processing : Bool
  messageBuffer : List QueuedMessage
  batchTimer : Option BatchTimerKind
  initialDelayTimer : Bool
  typingPauseTimer : Bool
  emergencyTimer : Bool
  isTypingActive : Bool
  typing : Option TypingState
  inFlight : List (Nat × FlightKind)
  nextCallId : Nat
  settled : List (Nat × Outcome)
  deriving Repr

/-- The idle initial state of a freshly created queue on a channel with no
typing history. -/
def initialQState : QState where
  queue := []
  processing := false
  messageBuffer := []
  batchTimer := none
  initialDelayTimer := false
  typingPauseTimer := false
  emergencyTimer := false
  isTypingActive := false
  typing := none
  inFlight := []
  nextCallId := 0
  settled := []

/-- Synchronous part of `processBatchedMessages`: guard on an empty buffer,
set the in-flight flag, drain the buffer, null the batch timer, clear the
emergency timer, and dispatch the backend call for the drained batch. -/
def processBatchedMessagesStep (s : QState) : QState :=
  if s.messageBuffer.length = 0 then s
  else
    { s with
        processing := true
        messageBuffer := []
        batchTimer := none
        emergencyTimer := false
        inFlight := s.inFlight ++ [(s.nextCallId, FlightKind.batch s.messageBuffer)]
        nextCallId := s.nextCallId + 1 }

/-- Synchronous part of `processNext`: guard on the in-flight flag and an
empty queue, shift the head, and dispatch its backend call. -/
def processNextStep (s : QState) : QState :=
  if s.processing then s
  else
    match s.queue with
    | [] => s
    | m :: rest =>
      { s with
          processing := true
          queue := rest
          inFlight := s.inFlight ++ [(s.nextCallId, FlightKind.single m)]
          nextCallId := s.nextCallId + 1 }

/-- `startInitialDelay`: arm the initial-delay timer unless already running. -/
def startInitialDelayStep (s : QState) : QState :=
  if s.initialDelayTimer then s else { s with initialDelayTimer := true }

/-- `addToBatch`: push the message, arm the emergency timer if this is the
first buffered message, and (re)arm the batch timer. -/
def addToBatchStep (s : QState) (m : QueuedMessage) : QState :=
  let s := { s with messageBuffer := s.messageBuffer ++ [m] }
  let s :=
    if s.messageBuffer.length = 1 && !s.emergencyTimer then
      { s with emergencyTimer := true }
    else s
  { s with batchTimer := some BatchTimerKind.normal }

/-- `enqueue` of a chat message: in any delay/processing/typing state, move
any queued messages to the front of the batch buffer and add to the batch;
otherwise queue it and start the initial delay. -/
def enqueueStep (s : QState) (m : QueuedMessage) : QState :=
  if s.processing || s.batchTimer.isSome || s.initialDelayTimer || s.isTypingActive then
    let s :=
      if s.queue.length > 0 then
        { s with messageBuffer := s.queue ++ s.messageBuffer, queue := [] }
      else s
    addToBatchStep s m
  else
    startInitialDelayStep { s with queue := s.queue ++ [m] }

/-- `enqueueTimerMessage`: push the timer message and call `processNext`
immediately, in the same tick. -/
def enqueueTimerStep (s : QState) (rid ts : Nat) : QState :=
  processNextStep { s with queue := s.queue ++ [⟨rid, MsgKind.timer, ts⟩] }

/-- `enqueueMemberJoinMessage`: push the member-join message and call
`processNext` immediately, in the same tick. -/
def enqueueMemberJoinStep (s : QState) (rid : Nat) (d : MemberJoinData) (ts : Nat) :
    QState :=
  processNextStep { s with queue := s.queue ++ [⟨rid, MsgKind.memberJoin d, ts⟩] }

/-- The initial-delay timer firing: null the timer; if typing is active,
return and let the typing-pause path take over; otherwise `processNext`. -/
def initialDelayFireStep (s : QState) : QState :=
  if !s.initialDelayTimer then s
  else
    let s := { s with initialDelayTimer := false }
    if s.isTypingActive then s else processNextStep s

/-- The batch timer firing at time `now`.  The normal timer first checks
`shouldWaitForTypingPause`; if so and the remaining wait
`TYPING_PAUSE_DELAY_MS - timeSinceStop` is positive it reschedules itself,
otherwise (including when `timeSinceStop` is `Infinity`, which makes the
remaining wait negative) it falls through to `processBatchedMessages`.  The
rescheduled timer calls `processBatchedMessages` with no further check. -/
def batchTimerFireStep (cfg : Config) (now : Nat) (s : QState) : QState :=
  match s.batchTimer with
  | none => s
  | some BatchTimerKind.rescheduled => processBatchedMessagesStep s
  | some BatchTimerKind.normal =>
    if shouldWaitForTypingPause cfg s.typing now then
      match getTimeSinceLastTypingStop s.typing now with
      | some t =>
        if (cfg.typingPauseMs : Int) - (t : Int) > 0 then
          { s with batchTimer := some BatchTimerKind.rescheduled }
        else processBatchedMessagesStep s
      | none => processBatchedMessagesStep s
    else processBatchedMessagesStep s

/-- The emergency timer firing: null it and force `processBatchedMessages`. -/
def emergencyFireStep (s : QState) : QState :=
  if !s.emergencyTimer then s
  else processBatchedMessagesStep { s with emergencyTimer := false }

/-- `tryProcessingAfterTypingPause`: only proceed when not processing;
batched messages first, else the queued message when no initial delay runs. -/
def tryProcessingAfterTypingPauseStep (s : QState) : QState :=
  if s.processing then s
  else if s.messageBuffer.length > 0 then processBatchedMessagesStep s
  else if s.queue.length > 0 && !s.initialDelayTimer then processNextStep s
  else s

/-- The typing-pause timer firing. -/
def typingPauseFireStep (s : QState) : QState :=
  if !s.typingPauseTimer then s
  else tryProcessingAfterTypingPauseStep { s with typingPauseTimer := false }

/-- `continueProcessing` (runs in the `finally` of both processing paths):
clear the in-flight flag and the typing-pause timer; when no delay mode nor
typing is active, process the batch buffer, else restart the initial delay
for queued messages. -/
def continueProcessingStep (s : QState) : QState :=
  let s := { s with processing := false, typingPauseTimer := false }
  if s.batchTimer.isNone && !s.initialDelayTimer && !s.isTypingActive then
    if s.messageBuffer.length > 0 then processBatchedMessagesStep s
    else if s.queue.length > 0 then startInitialDelayStep s
    else s
  else s

/-- Completion of an outstanding backend call: remove it from the
outstanding list, settle the promises it carried (per the current variant's
`processBatchedMessages` / `processNext` handlers), then `continueProcessing`. -/
def completeCallStep (s : QState) (callId : Nat) (result : Except Err String) : QState :=
  match s.inFlight.find? (fun p => p.fst = callId) with
  | none => s
  | some (_, k) =>
    let s := { s with inFlight := s.inFlight.filter (fun p => p.fst ≠ callId) }
    let newSettled :=
      match k with
      | FlightKind.batch msgs => settleBatchedMessages msgs result
      | FlightKind.single m => [settleSingle m result]
    continueProcessingStep { s with settled := s.settled ++ newSettled }

/-- `MessageQueueManager.onTypingStart` composed with the queue's
`onTypingStateChange(true)` notification (sent on every typing start): the
typing set gains the user, the queue marks typing active and clears its
typing-pause timer. -/
def typingStartStep (s : QState) (userId : String) : QState :=
  { s with
      typing := some (onTypingStart s.typing userId)
      isTypingActive := true
      typingPauseTimer := false }

/-- `MessageQueueManager.onTypingStop` at time `now` composed with the queue
notification `onTypingStateChange(false)` (sent only when the set empties):
the queue marks typing inactive and arms the typing-pause timer. -/
def typingStopStep (s : QState) (userId : String) (now : Nat) : QState :=
  match s.typing with
  | none => s
  | some ts =>
    let users := ts.users.erase userId
    if users.length = 0 then
      { s with
          typing := some { users := users, lastTypingStop := now }
          isTypingActive := false
          typingPauseTimer := true }
    else { s with typing := some { ts with users := users } }

/-! ### Helper lemmas -/

/-- `mapIdx` collapses to `map` when the function ignores all indices that
actually occur. -/
theorem mapIdx_eq_map_of_lt {α β : Type _} {f : Nat → α → β} {g : α → β} :
    ∀ l : List α, (∀ i a, i < l.length → f i a = g a) → l.mapIdx f = l.map g := by
  intro l
  induction l using List.reverseRecOn with
  | nil => simp
  | append_singleton l a ih =>
      intro h
      rw [List.mapIdx_append_one, List.map_append, List.map_singleton,
        ih (fun i a hi => h i a (by simp; omega)), h l.length a (by simp)]

/-- Closed form of the batch settlement loop on a non-empty list written as
`l ++ [e]`: every earlier promise resolves with `""`, the last with the
response. -/
theorem settleBatch_concat (l : List QueuedMessage) (e : QueuedMessage) (r : String) :
    settleBatch (l ++ [e]) r =
      l.map (fun m => (m.rid, Outcome.fulfilled "")) ++ [(e.rid, Outcome.fulfilled r)] := by
  unfold settleBatch
  rw [List.mapIdx_append_one]
  have hlen : (l ++ [e]).length - 1 = l.length := by simp
  rw [mapIdx_eq_map_of_lt l (fun i a hi => by simp only [hlen]; rw [if_neg (by omega)])]
  simp [hlen]

/-- An outcome that delivers visible text: a fulfilled promise whose text is
non-empty. -/
def hasNonEmptyText (o : Outcome) : Bool :=
  match o with
  | Outcome.fulfilled t => t ≠ ""
  | Outcome.rejected _ => false

/-! ### Claims -/

/-- Claim C1: for every processed batch of N ≥ 1 pending requests whose
backend call completes successfully, every request's completion handle is
fulfilled; the last-arrived request's handle receives the backend response
text and each earlier handle receives the empty string, so at most one handle
in the batch can receive non-empty text. -/
theorem claim_C1 (messages : List QueuedMessage) (response : String)
    (h : messages ≠ []) :
    settleBatch messages response =
      messages.dropLast.map (fun m => (m.rid, Outcome.fulfilled "")) ++
        [((messages.getLast h).rid, Outcome.fulfilled response)] ∧
    (settleBatch messages response).countP (fun p => hasNonEmptyText p.2) ≤ 1 := by
  rcases (List.eq_nil_or_concat messages) with hnil | ⟨l, e, rfl⟩
  · exact absurd hnil h
  simp only [List.concat_eq_append] at h ⊢
  constructor
  · rw [settleBatch_concat, List.dropLast_concat, List.getLast_concat]
  · rw [settleBatch_concat, List.countP_append]
    have h0 : (l.map (fun m => (m.rid, Outcome.fulfilled ""))).countP
        (fun p => hasNonEmptyText p.2) = 0 := by
      rw [List.countP_eq_zero]
      intro p hp
      rcases List.mem_map.mp hp with ⟨m, _, rfl⟩
      simp [hasNonEmptyText]
    rw [h0]
    simp [List.countP_cons, hasNonEmptyText]
    split <;> simp

/-- Witness for C1 at a concrete two-message batch. -/
theorem claim_C1_witness :
    settleBatch [⟨0, MsgKind.timer, 0⟩, ⟨1, MsgKind.timer, 5⟩] "hello" =
      [(0, Outcome.fulfilled ""), (1, Outcome.fulfilled "hello")] := by
  have h := claim_C1 [⟨0, MsgKind.timer, 0⟩, ⟨1, MsgKind.timer, 5⟩] "hello" (by decide)
  simpa using h.1

/-- A non-cancellation backend failure as a timeout would surface it. -/
def timeoutErr : Err where
  name := "Error"
  message := "Request timed out"

/-- A plain chat message with no reply reference, attachments or links. -/
def plainChat : DiscordMessage where
  authorId := "7"
  authorDisplayName := "Alice"
  memberNickname := none
  content := "hello there"
  channelName := "general"
  referenceMessageId := none
  attachmentDescription := ""
  linkDescription := ""

/-- The pending request wrapping `plainChat`. -/
def plainQMsg : QueuedMessage where
  rid := 0
  kind := MsgKind.chat plainChat MessageType.GENERIC
  timestamp := 0

/-- An environment whose backend call always fails with `timeoutErr`. -/
def timeoutEnv : BatchEnv where
  fetch := fun _ => Except.error { name := "Error", message := "not found" }
  backend := fun _ => BackendOutcome.failure timeoutErr

/-- Counterexample to C2: a single-request batch whose backend call fails
with a timeout.  The claim requires the request's handle to be rejected with
that failure; the code's `processBatch` catches the error and returns `""`,
so the handle is fulfilled with the empty string instead. -/
theorem claim_C2_counterexample :
    isAbortError timeoutErr = false ∧
    processBatch (some "agent") timeoutEnv [plainQMsg] = (Except.ok "", ["[Alice (id=7) sent a message to channel general] hello there"]) ∧
    settleBatchedMessages [plainQMsg]
        (processBatch (some "agent") timeoutEnv [plainQMsg]).1 =
      [(0, Outcome.fulfilled "")] := by
  refine ⟨by decide, rfl, rfl⟩

/-- Claim C2 as amended: when the backend call of a batch fails (for any
reason, in this variant), no pending request is rejected — `processBatch`
absorbs the failure and returns the empty string, so every request's handle
is fulfilled exactly as for a successful call with empty response text — and
no retry is attempted (exactly one backend call is made). -/
theorem claim_C2_amended (agentId : String) (env : BatchEnv)
    (messages : List QueuedMessage) (contents : List String) (payload : String)
    (e : Err)
    (hc : batchMessageContents env.fetch messages = Except.ok contents)
    (hp : combineContents contents = some payload)
    (hb : env.backend payload = BackendOutcome.failure e) :
    processBatch (some agentId) env messages = (Except.ok "", [payload]) ∧
    settleBatchedMessages messages
        (processBatch (some agentId) env messages).1 = settleBatch messages "" ∧
    (processBatch (some agentId) env messages).2.length = 1 := by
  have hpb : processBatch (some agentId) env messages = (Except.ok "", [payload]) := by
    simp only [processBatch, hc, hp, hb]
  refine ⟨hpb, ?_, ?_⟩
  · rw [hpb]; rfl
  · rw [hpb]; rfl

/-- Witness for the amended C2 at the concrete timeout scenario. -/
theorem claim_C2_amended_witness :
    processBatch (some "agent") timeoutEnv [plainQMsg] =
      (Except.ok "", ["[Alice (id=7) sent a message to channel general] hello there"]) ∧
    settleBatchedMessages [plainQMsg]
        (processBatch (some "agent") timeoutEnv [plainQMsg]).1 =
      settleBatch [plainQMsg] "" ∧
    (processBatch (some "agent") timeoutEnv [plainQMsg]).2.length = 1 :=
  claim_C2_amended "agent" timeoutEnv [plainQMsg]
    ["[Alice (id=7) sent a message to channel general] hello there"]
    "[Alice (id=7) sent a message to channel general] hello there" timeoutErr
    rfl rfl rfl

/-- Claim C7: when no backend agent id is configured, every dispatch
operation — batch, single message, timer, member join — returns an
empty-string result without attempting a backend call, and never rejects
for this reason. -/
theorem claim_C7 (env : BatchEnv) (messages : List QueuedMessage)
    (m : DiscordMessage) (mt : MessageType) (d : MemberJoinData) :
    processBatch none env messages = (Except.ok "", []) ∧
    processMessage none env m mt = (Except.ok "", []) ∧
    processTimerMessage none env = (Except.ok "", []) ∧
    processMemberJoinMessage none env d = (Except.ok "", []) :=
  ⟨rfl, rfl, rfl, rfl⟩

/-- Witness for C7 at a concrete environment and inputs. -/
theorem claim_C7_witness :
    processBatch none timeoutEnv [plainQMsg] = (Except.ok "", []) ∧
    processMessage none timeoutEnv plainChat MessageType.GENERIC = (Except.ok "", []) ∧
    processTimerMessage none timeoutEnv = (Except.ok "", []) ∧
    processMemberJoinMessage none timeoutEnv
        { displayName := "n", id := "1", guildName := "g", joinedAtISO := none } =
      (Except.ok "", []) :=
  claim_C7 timeoutEnv [plainQMsg] plainChat MessageType.GENERIC
    { displayName := "n", id := "1", guildName := "g", joinedAtISO := none }

/-- The default timing configuration (30s initial delay, 1s batch window,
2s typing pause). -/
def defaultConfig : Config := {}

/-- A second plain chat message, arriving while the first is in flight. -/
def plainChat2 : DiscordMessage :=
  { plainChat with content := "and another thing" }

/-- The pending request wrapping `plainChat2`. -/
def plainQMsg2 : QueuedMessage where
  rid := 1
  kind := MsgKind.chat plainChat2 MessageType.GENERIC
  timestamp := 400

/-- The interleaving that breaks the at-most-one-in-flight invariant: a chat
message is enqueued on an idle queue, the initial delay fires and dispatches
its backend call, a second message arrives during the call (going to the
batch buffer and arming the batch timer), and the batch timer then fires
while the first call is still outstanding. -/
def twoCallsState : QState :=
  batchTimerFireStep defaultConfig 31500
    (enqueueStep (initialDelayFireStep (enqueueStep initialQState plainQMsg)) plainQMsg2)

/-- Claim C3 (refuted by the code, spec intent upheld): `processNext` checks
the `processing` flag, but `processBatchedMessages` does not, so a batch
timer firing while a call dispatched by `processNext` is still outstanding
starts a second concurrent backend call.  At the failing interleaving the
queue is already processing with one call in flight, and the batch-timer
firing dispatches a second. -/
theorem claim_C3 :
    (enqueueStep (initialDelayFireStep (enqueueStep initialQState plainQMsg))
        plainQMsg2).processing = true ∧
    (enqueueStep (initialDelayFireStep (enqueueStep initialQState plainQMsg))
        plainQMsg2).inFlight.length = 1 ∧
    twoCallsState.processing = true ∧
    twoCallsState.inFlight =
      [(0, FlightKind.single plainQMsg), (1, FlightKind.batch [plainQMsg2])] := by
  refine ⟨by decide, by decide, by decide, by decide⟩

/-- A typing state in which a user is actively typing and typing never
stopped since the state was created (`lastTypingStop = 0`, its initial
value). -/
def typingNeverStopped : TypingState where
  users := ["u"]
  lastTypingStop := 0

/-- A queue at batch-window expiry with one buffered message while the
channel's user is actively typing and never previously stopped. -/
def typingAtExpiryState : QState :=
  { initialQState with
      messageBuffer := [plainQMsg]
      batchTimer := some BatchTimerKind.normal
      emergencyTimer := true
      isTypingActive := true
      typing := some typingNeverStopped }

/-- Claim C6 (refuted by the code, spec intent upheld): when the batch timer
fires while a user is actively typing, `shouldWaitForTypingPause` says to
wait ("still typing, definitely wait"), but the remaining-wait arithmetic
`TYPING_PAUSE_DELAY_MS - timeSinceStop` uses `timeSinceStop = Infinity`
(typing never stopped), which is not `> 0`, so the code falls through and
processes the batch immediately instead of deferring. -/
theorem claim_C6 :
    isChannelTyping typingAtExpiryState.typing = true ∧
    shouldWaitForTypingPause defaultConfig typingAtExpiryState.typing 31000 = true ∧
    (batchTimerFireStep defaultConfig 31000 typingAtExpiryState).processing = true ∧
    (batchTimerFireStep defaultConfig 31000 typingAtExpiryState).inFlight =
      [(0, FlightKind.batch [plainQMsg])] ∧
    (batchTimerFireStep defaultConfig 31000 typingAtExpiryState).messageBuffer = [] := by
  refine ⟨by decide, by decide, by decide, by decide, by decide⟩

/-- Claim C10: timer and member-join events bypass the initial debounce and
batch window entirely.  On an idle queue (not processing, empty singleton
queue) — whatever the state of the debounce, batch, typing-pause and
emergency timers and of the typing flag — enqueueing such an event dispatches
its backend call within the same tick; and the only guard is the in-flight
check: when a call is already outstanding the event is merely queued. -/
theorem claim_C10 (s : QState) (rid ts : Nat) (d : MemberJoinData)
    (hp : s.processing = false) (hq : s.queue = []) :
    enqueueTimerStep s rid ts =
      { s with
          processing := true
          inFlight := s.inFlight ++ [(s.nextCallId, FlightKind.single ⟨rid, MsgKind.timer, ts⟩)]
          nextCallId := s.nextCallId + 1 } ∧
    enqueueMemberJoinStep s rid d ts =
      { s with
          processing := true
          inFlight := s.inFlight ++
            [(s.nextCallId, FlightKind.single ⟨rid, MsgKind.memberJoin d, ts⟩)]
          nextCallId := s.nextCallId + 1 } ∧
    (∀ s2 : QState, s2.processing = true →
      enqueueTimerStep s2 rid ts =
        { s2 with queue := s2.queue ++ [⟨rid, MsgKind.timer, ts⟩] }) := by
  refine ⟨?_, ?_, ?_⟩
  · simp [enqueueTimerStep, processNextStep, hp, hq]
  · simp [enqueueMemberJoinStep, processNextStep, hp, hq]
  · intro s2 h2
    simp [enqueueTimerStep, processNextStep, h2]

/-- Witness for C10 on an idle queue whose debounce, batch, typing-pause and
emergency timers are all armed and typing is active. -/
theorem claim_C10_witness :
    enqueueTimerStep
        { initialQState with
            batchTimer := some BatchTimerKind.normal
            initialDelayTimer := true
            typingPauseTimer := true
            emergencyTimer := true
            isTypingActive := true } 5 9 =
      { initialQState with
          batchTimer := some BatchTimerKind.normal
          initialDelayTimer := true
          typingPauseTimer := true
          emergencyTimer := true
          isTypingActive := true
          processing := true
          inFlight := [(0, FlightKind.single ⟨5, MsgKind.timer, 9⟩)]
          nextCallId := 1 } := by
  have h := claim_C10
    { initialQState with
        batchTimer := some BatchTimerKind.normal
        initialDelayTimer := true
        typingPauseTimer := true
        emergencyTimer := true
        isTypingActive := true } 5 9
    { displayName := "n", id := "1", guildName := "g", joinedAtISO := none }
    rfl rfl
  simpa using h.1

/-- The content loop formats nothing for a batch made only of timer events. -/
theorem batchMessageContents_all_timer (fetch : String → Except Err FetchedMessage) :
    ∀ messages : List QueuedMessage, (∀ m ∈ messages, m.kind = MsgKind.timer) →
      batchMessageContents fetch messages = Except.ok [] := by
  intro messages h
  induction messages with
  | nil => rfl
  | cons m rest ih =>
      have hm : m.kind = MsgKind.timer := h m (by simp)
      have := ih (fun x hx => h x (by simp [hx]))
      simp only [batchMessageContents, hm]
      exact this

/-- Claim C4: a drained batch with exactly one formatted text sends that text
verbatim; with several it sends the batch marker naming the count followed by
the texts in order separated by blank lines; a timer event contributes no
formatted text; and a batch producing no formatted text at all (e.g. only
timer events) yields an empty-string result without a backend call. -/
theorem claim_C4 (agentId : String) (env : BatchEnv) :
    (∀ (messages : List QueuedMessage) (c : String),
      batchMessageContents env.fetch messages = Except.ok [c] →
      (processBatch (some agentId) env messages).2 = [c]) ∧
    (∀ (messages : List QueuedMessage) (c : String) (cs : List String),
      batchMessageContents env.fetch messages = Except.ok (c :: cs) → cs ≠ [] →
      (processBatch (some agentId) env messages).2 =
        ["[BATCH: " ++ toString (c :: cs).length ++
          " messages received in quick succession]\n\n" ++
          String.intercalate "\n\n" (c :: cs)]) ∧
    (∀ (rid ts : Nat) (rest : List QueuedMessage),
      batchMessageContents env.fetch (⟨rid, MsgKind.timer, ts⟩ :: rest) =
        batchMessageContents env.fetch rest) ∧
    (∀ messages : List QueuedMessage,
      batchMessageContents env.fetch messages = Except.ok [] →
      processBatch (some agentId) env messages = (Except.ok "", [])) ∧
    (∀ messages : List QueuedMessage, (∀ m ∈ messages, m.kind = MsgKind.timer) →
      processBatch (some agentId) env messages = (Except.ok "", [])) := by
  refine ⟨?_, ?_, ?_, ?_, ?_⟩
  · intro messages c hc
    simp only [processBatch, hc, combineContents]
    cases henv : env.backend c <;> simp
  · intro messages c cs hc hcs
    cases cs with
    | nil => exact absurd rfl hcs
    | cons c2 cs2 =>
        simp only [processBatch, hc, combineContents]
        cases henv : env.backend ("[BATCH: " ++ toString (c :: c2 :: cs2).length ++
          " messages received in quick succession]\n\n" ++
          String.intercalate "\n\n" (c :: c2 :: cs2)) <;> simp [henv]
  · intro rid ts rest
    simp only [batchMessageContents]
  · intro messages hc
    simp only [processBatch, hc, combineContents]
  · intro messages hall
    have hc := batchMessageContents_all_timer env.fetch messages hall
    simp only [processBatch, hc, combineContents]

/-- An environment whose fetch succeeds and whose backend replies with a
fixed text, used to instantiate witnesses. -/
def okEnv : BatchEnv where
  fetch := fun _ =>
    Except.ok { authorId := "9", authorDisplayName := "Carol",
                memberNickname := none, content := "the original" }
  backend := fun _ => BackendOutcome.success "sure"

/-- A member used in witnesses. -/
def danMember : MemberJoinData where
  displayName := "Dan"
  id := "11"
  guildName := "Guild"
  joinedAtISO := none

/-- A member-join request used in witnesses. -/
def joinQMsg : QueuedMessage where
  rid := 3
  kind := MsgKind.memberJoin danMember
  timestamp := 10

/-- Witness for C4: a singleton batch sends its one text verbatim, a
two-message batch sends the marker plus both texts, a leading timer message
contributes nothing, and an all-timer batch makes no call. -/
theorem claim_C4_witness :
    (processBatch (some "agent") okEnv [joinQMsg]).2 =
      [formatMemberJoin danMember] ∧
    (processBatch (some "agent") okEnv [joinQMsg, plainQMsg]).2 =
      ["[BATCH: " ++ toString 2 ++ " messages received in quick succession]\n\n" ++
        String.intercalate "\n\n"
          [formatMemberJoin danMember,
           "[Alice (id=7) sent a message to channel general] hello there"]] ∧
    batchMessageContents okEnv.fetch [⟨4, MsgKind.timer, 0⟩, joinQMsg] =
      batchMessageContents okEnv.fetch [joinQMsg] ∧
    processBatch (some "agent") okEnv [⟨4, MsgKind.timer, 0⟩] = (Except.ok "", []) := by
  have h := claim_C4 "agent" okEnv
  refine ⟨h.1 [joinQMsg] _ rfl, ?_, h.2.2.1 4 0 [joinQMsg], ?_⟩
  · have h2 := h.2.1 [joinQMsg, plainQMsg] (formatMemberJoin danMember)
      ["[Alice (id=7) sent a message to channel general] hello there"] rfl (by decide)
    simpa using h2
  · exact h.2.2.2.2 [⟨4, MsgKind.timer, 0⟩] (by decide)

/-- A cancellation-class error as the abort-and-rebatch variant raises it. -/
def abortErr : Err where
  name := "AbortError"
  message := "The operation was aborted"

/-- Claim C5: in the abort-and-rebatch variant, a batch whose backend call
fails with a cancellation-class error settles nobody — all of its requests
are pushed back to the front of the batch buffer in their original order, so
the next batch attempt drains them together with the newer arrivals; a later
successful attempt settles the combined batch exactly as a single
uninterrupted batch would, the superseded original requests receiving the
empty string. -/
theorem claim_C5 (agentId : String) (env : BatchEnv)
    (messages buffer : List QueuedMessage) (contents : List String)
    (payload : String) (e : Err)
    (hc : batchMessageContents env.fetch messages = Except.ok contents)
    (hp : combineContents contents = some payload)
    (hb : env.backend payload = BackendOutcome.failure e)
    (ha : isAbortError e = true) :
    processBatchAbortVariant (some agentId) env messages = (Except.error e, [payload]) ∧
    settleBatchedMessagesAbortVariant messages buffer (Except.error e) =
      ([], messages ++ buffer) ∧
    (∀ response : String,
      settleBatchedMessagesAbortVariant (messages ++ buffer) [] (Except.ok response) =
        (settleBatch (messages ++ buffer) response, [])) ∧
    (∀ response : String, buffer ≠ [] →
      ∃ rest, settleBatch (messages ++ buffer) response =
        messages.map (fun m => (m.rid, Outcome.fulfilled "")) ++ rest) := by
  refine ⟨?_, ?_, fun response => rfl, ?_⟩
  · simp only [processBatchAbortVariant, hc, hp, hb, ha, if_true]
  · simp only [settleBatchedMessagesAbortVariant, ha, if_true]
  · intro response hbuf
    rcases List.eq_nil_or_concat buffer with hnil | ⟨b, eb, rfl⟩
    · exact absurd hnil hbuf
    refine ⟨b.map (fun m => (m.rid, Outcome.fulfilled "")) ++
      [(eb.rid, Outcome.fulfilled response)], ?_⟩
    rw [List.concat_eq_append, ← List.append_assoc, settleBatch_concat, List.map_append,
      List.append_assoc]

/-- Witness for C5: one in-flight request aborted to accommodate one newer
request; nobody settles, the buffer holds both in order, and the retried
batch fulfills the superseded request with the empty string. -/
theorem claim_C5_witness :
    processBatchAbortVariant (some "agent")
        { fetch := okEnv.fetch, backend := fun _ => BackendOutcome.failure abortErr }
        [plainQMsg] =
      (Except.error abortErr,
        ["[Alice (id=7) sent a message to channel general] hello there"]) ∧
    settleBatchedMessagesAbortVariant [plainQMsg] [plainQMsg2] (Except.error abortErr) =
      ([], [plainQMsg, plainQMsg2]) ∧
    (∃ rest, settleBatch [plainQMsg, plainQMsg2] "sure" =
      [(0, Outcome.fulfilled "")] ++ rest) := by
  have h := claim_C5 "agent"
    { fetch := okEnv.fetch, backend := fun _ => BackendOutcome.failure abortErr }
    [plainQMsg] [plainQMsg2]
    ["[Alice (id=7) sent a message to channel general] hello there"]
    "[Alice (id=7) sent a message to channel general] hello there" abortErr
    rfl rfl rfl (by decide)
  exact ⟨h.1, h.2.1, h.2.2.2 "sure" (by decide)⟩

/-- A channel's typing state after: user "u" starts typing, stops at time
1000 (the set empties, so `lastTypingStop := 1000`), then starts typing
again and is still typing. -/
def resumedTyping : Option TypingState :=
  some (onTypingStart (onTypingStop (some (onTypingStart none "u")) "u" 1000) "u")

/-- Counterexample to C8: the claim says the query returns an infinite
duration whenever some user is currently typing; but after a stop-and-resume
the code returns the finite elapsed time since the recorded last stop even
though a user is actively typing. -/
theorem claim_C8_counterexample :
    isChannelTyping resumedTyping = true ∧
    getTimeSinceLastTypingStop resumedTyping 5000 = some 4000 := by
  refine ⟨by decide, by decide⟩

/-- Claim C8 as amended: the time-since-typing-stopped query returns an
infinite duration iff the channel has no recorded typing state or typing has
never stopped-to-empty since the state was created (`lastTypingStop = 0`) —
in particular when no user ever typed there; otherwise it returns the
elapsed time since the typing set last became empty, regardless of whether a
user is currently typing. -/
theorem claim_C8_amended (st : Option TypingState) (now : Nat) :
    (getTimeSinceLastTypingStop st now = none ↔
      st = none ∨ ∃ s : TypingState, st = some s ∧ s.lastTypingStop = 0) ∧
    ∀ s : TypingState, st = some s → 0 < s.lastTypingStop →
      getTimeSinceLastTypingStop st now = some (now - s.lastTypingStop) := by
  constructor
  · cases st with
    | none => simp [getTimeSinceLastTypingStop]
    | some s =>
        constructor
        · intro hnone
          simp only [getTimeSinceLastTypingStop] at hnone
          by_cases h : s.lastTypingStop > 0
          · rw [if_pos h] at hnone
            exact Option.noConfusion hnone
          · exact Or.inr ⟨s, rfl, by omega⟩
        · rintro (hn | ⟨s2, hs2, h0⟩)
          · exact Option.noConfusion hn
          · injection hs2 with hs2
            subst hs2
            simp [getTimeSinceLastTypingStop, h0]
  · rintro s rfl h
    simp [getTimeSinceLastTypingStop, h]

/-- Witness for the amended C8 at a concrete state with a recorded stop. -/
theorem claim_C8_amended_witness :
    getTimeSinceLastTypingStop (some { users := ["u"], lastTypingStop := 1000 }) 5000 =
      some 4000 :=
  (claim_C8_amended (some { users := ["u"], lastTypingStop := 1000 }) 5000).2
    { users := ["u"], lastTypingStop := 1000 } rfl (by decide)

/-- The reply-fetch failure as the messaging platform raises it. -/
def fetchFailErr : Err where
  name := "DiscordAPIError"
  message := "Unknown Message"

/-- A reply-classified chat message referencing original message "42". -/
def replyChat : DiscordMessage :=
  { plainChat with referenceMessageId := some "42" }

/-- The pending request wrapping `replyChat`. -/
def replyQMsg : QueuedMessage where
  rid := 2
  kind := MsgKind.chat replyChat MessageType.REPLY
  timestamp := 0

/-- An environment whose reply-fetch always rejects while the backend would
happily answer. -/
def fetchFailEnv : BatchEnv where
  fetch := fun _ => Except.error fetchFailErr
  backend := fun _ => BackendOutcome.success "sure"

/-- Counterexample to C9: the claim says a failed lookup of the replied-to
message degrades to omitting the quoted excerpt, with the payload still sent
and no rejection; but the fetch is awaited with no try/catch, so the failure
propagates — no payload is sent and the request's future is rejected. -/
theorem claim_C9_counterexample :
    processMessage (some "agent") fetchFailEnv replyChat MessageType.REPLY =
      (Except.error fetchFailErr, []) ∧
    settleSingle replyQMsg
        (processMessage (some "agent") fetchFailEnv replyChat MessageType.REPLY).1 =
      (2, Outcome.rejected fetchFailErr) := by
  refine ⟨rfl, rfl⟩

/-- Claim C9 as amended: when the asynchronous lookup of the replied-to
message fails, the failure propagates out of `formatDiscordMessage`: no
payload is produced or sent, and the request's future is rejected with that
failure (in the batch path, the whole batch is rejected). -/
theorem claim_C9_amended (agentId : String) (env : BatchEnv) (m : DiscordMessage)
    (refId : String) (e : Err) (rid ts : Nat)
    (href : m.referenceMessageId = some refId)
    (hfetch : env.fetch refId = Except.error e) :
    formatDiscordMessage env.fetch m MessageType.REPLY = Except.error e ∧
    processMessage (some agentId) env m MessageType.REPLY = (Except.error e, []) ∧
    settleSingle ⟨rid, MsgKind.chat m MessageType.REPLY, ts⟩
        (processMessage (some agentId) env m MessageType.REPLY).1 =
      (rid, Outcome.rejected e) ∧
    processBatch (some agentId) env [⟨rid, MsgKind.chat m MessageType.REPLY, ts⟩] =
      (Except.error e, []) ∧
    settleBatchedMessages [⟨rid, MsgKind.chat m MessageType.REPLY, ts⟩]
        (processBatch (some agentId) env [⟨rid, MsgKind.chat m MessageType.REPLY, ts⟩]).1 =
      [(rid, Outcome.rejected e)] := by
  have hfmt : formatDiscordMessage env.fetch m MessageType.REPLY = Except.error e := by
    simp [formatDiscordMessage, href, hfetch]
  have hpm : processMessage (some agentId) env m MessageType.REPLY = (Except.error e, []) := by
    simp only [processMessage, hfmt]
  have hbc : batchMessageContents env.fetch [⟨rid, MsgKind.chat m MessageType.REPLY, ts⟩] =
      Except.error e := by
    simp only [batchMessageContents, hfmt]
    rfl
  have hpb : processBatch (some agentId) env [⟨rid, MsgKind.chat m MessageType.REPLY, ts⟩] =
      (Except.error e, []) := by
    simp only [processBatch, hbc]
  refine ⟨hfmt, hpm, ?_, hpb, ?_⟩
  · rw [hpm]; rfl
  · rw [hpb]; rfl

/-- Witness for the amended C9 at the concrete failing-fetch environment. -/
theorem claim_C9_amended_witness :
    formatDiscordMessage fetchFailEnv.fetch replyChat MessageType.REPLY =
      Except.error fetchFailErr ∧
    processMessage (some "agent") fetchFailEnv replyChat MessageType.REPLY =
      (Except.error fetchFailErr, []) :=
  have h := claim_C9_amended "agent" fetchFailEnv replyChat "42" fetchFailErr 2 0 rfl rfl
  ⟨h.1, h.2.1⟩

end LettaBot
